import Mathlib

/-!
# Verification of the form-master event-registration service

Shallow embedding of the HTTP route handlers of the `form-master`
repository:

* `src/app/api/events/register/route.ts` — attendee registration endpoint
  (`POST /api/events/register`);
* `src/app/api/companies/route.ts` — admin company management
  (`GET`/`POST`/`PUT`/`DELETE /api/companies`).

Spreadsheet rows are lists of strings (`Row`); a sheet is a list of rows
with the header at index 0.  The spreadsheet access layer
(`@/lib/sheets`) is not part of the embedded sources, so it is modelled
from the specification as a pair of association lists: named sheets and
per-`(company, event)` registration tables.  JavaScript `undefined` cell
reads are modelled as the empty string (`List.getD _ _ ""`), and string
truthiness (`!x`, `x || d`) is modelled explicitly.
-/

namespace FormMaster

/-- A spreadsheet row: a list of cell strings. -/
abbrev Row := List String

/-- A sheet: list of rows, header row at index 0. -/
abbrev Sheet := List Row

/-- Modelled from the spec: the spreadsheet service holds named sheets
(read by `getSheetData`) and per-company, per-event registration tables
(read by `getTableData`).  Both are association lists; a missing key
models the collaborator throwing an error. -/
structure Store where
  sheets : List (String × Sheet)
  tables : List ((String × String) × Sheet)
deriving Repr, DecidableEq

/-- Modelled from the spec: `getSheetData(name)` — first sheet stored
under `name`, `none` when the collaborator throws. -/
def lookupSheet : List (String × Sheet) → String → Option Sheet
  | [], _ => none
  | (k, v) :: rest, name => if k = name then some v else lookupSheet rest name

/-- Modelled from the spec: `getTableData(company, event)` — the
registration table of an event, `none` when the collaborator throws. -/
def lookupTable : List ((String × String) × Sheet) → String → String → Option Sheet
  | [], _, _ => none
  | (k, v) :: rest, c, e => if k = (c, e) then some v else lookupTable rest c e

/-- Modelled from the spec: `addToTable(company, event, row)` appends one
row to the event's registration table (every stored copy of the key is
updated; the first one is the one `lookupTable` sees). -/
def appendTable : List ((String × String) × Sheet) → String → String → Row →
    List ((String × String) × Sheet)
  | [], _, _, _ => []
  | (k, v) :: rest, c, e, row =>
      if k = (c, e) then (k, v ++ [row]) :: appendTable rest c e row
      else (k, v) :: appendTable rest c e row

/-- Modelled from the spec: `appendToSheet(name, rows)` appends rows at
the bottom of the named sheet. -/
def appendSheet : List (String × Sheet) → String → List Row → List (String × Sheet)
  | [], _, _ => []
  | (k, v) :: rest, name, rows =>
      if k = name then (k, v ++ rows) :: appendSheet rest name rows
      else (k, v) :: appendSheet rest name rows

/-- Modelled from the spec: `updateRow(name, index, row)` overwrites the
row at `index` (0-based, header at 0) of the named sheet. -/
def setSheetRow : List (String × Sheet) → String → Nat → Row → List (String × Sheet)
  | [], _, _, _ => []
  | (k, v) :: rest, name, i, row =>
      if k = name then (k, v.set i row) :: setSheetRow rest name i row
      else (k, v) :: setSheetRow rest name i row

/-- Modelled from the spec: `renameSheet(oldName, newName)` re-keys the
sheet stored under `oldName`. -/
def renameSheet : List (String × Sheet) → String → String → List (String × Sheet)
  | [], _, _ => []
  | (k, v) :: rest, oldName, newName =>
      if k = oldName then (newName, v) :: renameSheet rest oldName newName
      else (k, v) :: renameSheet rest oldName newName

/-- Modelled from the spec: `createSheet(name)` adds a fresh empty sheet
under `name`. -/
def createSheet (m : List (String × Sheet)) (name : String) : List (String × Sheet) :=
  m ++ [(name, [])]

/-! ## JavaScript-semantics helpers -/

/-- JavaScript whitespace class `\s` restricted to the ASCII characters
relevant here (space, tab, LF, VT, FF, CR). -/
def isJsSpace (c : Char) : Bool :=
  c = ' ' || c = '\t' || c = '\n' || c = Char.ofNat 11 || c = Char.ofNat 12 || c = '\r'

/-- A character matched by `[^\s@]`. -/
def isAtomChar (c : Char) : Bool :=
  !(isJsSpace c) && !(c = '@')

/-- All decompositions `l = pre ++ suf` of a list. -/
def splits : List Char → List (List Char × List Char)
  | [] => [([], [])]
  | c :: cs => ([], c :: cs) :: (splits cs).map (fun p => (c :: p.1, p.2))

/-- Match for the suffix regex `[^\s@]+\.[^\s@]+$`. -/
def emailTail (l : List Char) : Bool :=
  (splits l).any (fun p =>
    !p.1.isEmpty && p.1.all isAtomChar &&
      match p.2 with
      | '.' :: c => !c.isEmpty && c.all isAtomChar
      | _ => false)

/-- `emailRegex.test` for `/^[^\s@]+@[^\s@]+\.[^\s@]+$/` (route.ts line 54). -/
def emailRegexTest (s : String) : Bool :=
  (splits s.toList).any (fun p =>
    !p.1.isEmpty && p.1.all isAtomChar &&
      match p.2 with
      | '@' :: rest => emailTail rest
      | _ => false)

/-- `phoneRegex.test` for `/^\d{10,15}$/` (route.ts line 63). -/
def phoneRegexTest (s : String) : Bool :=
  s.toList.all Char.isDigit && decide (10 ≤ s.toList.length) && decide (s.toList.length ≤ 15)

/-! ## Registration endpoint (`POST /api/events/register`) -/

/-- Body of a registration request.  `companyName` stands for the already
`decodeURIComponent`-decoded name; a JSON field that is absent behaves
exactly like the empty string under the route's `!field` checks, so
fields are plain strings with `""` for absent. -/
structure RegRequest where
  companyName : String
  eventName : String
  name : String
  whatsappNumber : String
  nationalId : String
  email : String
  education : String
  universityCollege : String
  age : String
  gender : String
deriving Repr, DecidableEq

/-- Outcome of the registration endpoint: an error `NextResponse.json`
with HTTP status and error string, or the success payload echoing
`name`, `email` and `registrationDate`. -/
inductive RegResult where
  | err (status : Nat) (msg : String)
  | ok (name email registrationDate : String)
deriving Repr, DecidableEq

/-- `true` exactly on the error responses of the registration endpoint. -/
def RegResult.isErr : RegResult → Bool
  | .err _ _ => true
  | .ok _ _ _ => false

/-- Guard of route.ts line 33: some required field is falsy. -/
def missingFields (r : RegRequest) : Bool :=
  r.companyName = "" || r.eventName = "" || r.name = "" || r.whatsappNumber = "" ||
    r.nationalId = "" || r.email = "" || r.education = "" || r.universityCollege = "" ||
    r.age = "" || r.gender = ""

/-- route.ts line 108: `companies.find((row) => row[1] === companyName)`
over the companies sheet minus its header row. -/
def findCompanyRow (companiesData : Sheet) (companyName : String) : Option Row :=
  (companiesData.drop 1).find? (fun row => row.getD 1 "" = companyName)

/-- route.ts line 111: `company[5] || 'enabled'`. -/
def companyStatus (company : Row) : String :=
  if company.getD 5 "" = "" then "enabled" else company.getD 5 ""

/-- route.ts lines 150–162: the event is disabled when an `EventStatus`
header column exists, the table has a row below the header, and that
row's cell in the column is `'disabled'`. -/
def eventDisabled (tableData : Sheet) : Bool :=
  match (tableData.getD 0 []).findIdx? (fun h => h = "EventStatus") with
  | some statusIndex =>
      decide (1 < tableData.length) && (tableData.getD 1 []).getD statusIndex "" = "disabled"
  | none => false

/-- route.ts lines 164–175: duplicate scan — some non-header row matches
the submitted email in the `Email` column or the submitted WhatsApp
number in the `WhatsApp Number` column (a missing column matches
nothing). -/
def isDuplicate (tableData : Sheet) (email whatsappNumber : String) : Bool :=
  let headers := tableData.getD 0 []
  let emailIndex := headers.findIdx? (fun h => h = "Email")
  let whatsappIndex := headers.findIdx? (fun h => h = "WhatsApp Number")
  (tableData.drop 1).any (fun row =>
    (match emailIndex with
     | some i => row.getD i "" = email
     | none => false) ||
    (match whatsappIndex with
     | some i => row.getD i "" = whatsappNumber
     | none => false))

/-- route.ts lines 198–208: the appended row — registration fields in the
required order plus the ISO timestamp as last column. -/
def newRegistrationRow (r : RegRequest) (nowIso : String) : Row :=
  [r.name, r.whatsappNumber, r.nationalId, r.email, r.education, r.universityCollege,
    r.age, r.gender, nowIso]

/-- `POST /api/events/register` (src/app/api/events/register/route.ts).
`nowIso` is the value of `new Date().toISOString()`; `writeOk` is false
when the `addToTable` collaborator call throws (route.ts lines 221–227),
modelled as failing without writing.  Returns the response and the store
after the request. -/
def registerPost (nowIso : String) (writeOk : Bool) (r : RegRequest) (s : Store) :
    RegResult × Store :=
  if missingFields r then (.err 400 "All fields are required", s)
  else if !emailRegexTest r.email then (.err 400 "Invalid email format", s)
  else if !phoneRegexTest r.whatsappNumber then
    (.err 400 "Invalid WhatsApp number format", s)
  else
    match lookupSheet s.sheets r.companyName with
    | none =>
        (.err 404 ("Company \"" ++ r.companyName ++ "\" not found or inaccessible"), s)
    | some sheetData =>
      if sheetData.isEmpty then (.err 404 "Company not found", s)
      else
        match lookupSheet s.sheets "companies" with
        | none => (.err 500 "Failed to verify company status", s)
        | some companiesData =>
          match findCompanyRow companiesData r.companyName with
          | none => (.err 404 "Company not found in the system", s)
          | some company =>
            if companyStatus company = "disabled" then
              (.err 403 "Company is disabled, registration is not available", s)
            else
              match lookupTable s.tables r.companyName r.eventName with
              | none =>
                  (.err 404 ("Event \"" ++ r.eventName ++ "\" not found or inaccessible"), s)
              | some tableData =>
                if tableData.isEmpty then (.err 404 "Event not found", s)
                else if eventDisabled tableData then
                  (.err 403 "Event registration is currently disabled", s)
                else if isDuplicate tableData r.email r.whatsappNumber then
                  (.err 400 "You are already registered for this event", s)
                else if !writeOk then (.err 500 "Failed to complete registration", s)
                else
                  (.ok r.name r.email nowIso,
                    { s with
                      tables := appendTable s.tables r.companyName r.eventName
                        (newRegistrationRow r nowIso) })

/-! ## Companies endpoint (`/api/companies`) -/

/-- JavaScript truthiness of an optional string field: absent (`none`,
i.e. `undefined`) and the empty string are falsy. -/
def truthy : Option String → Bool
  | none => false
  | some s => !(s = "")

/-- JavaScript `x || d` for an optional string `x`. -/
def jsOr (v : Option String) (d : String) : String :=
  match v with
  | some s => if s = "" then d else s
  | none => d

/-- Request-independent context of the companies routes: the admin
session check, `Date.now()`, `bcrypt.hash(·, 10)`, and the result of the
`uploadImage` collaborator. -/
structure AdminEnv where
  admin : Bool
  nowMs : Nat
  hash : String → String
  uploadSuccess : Bool
  uploadUrl : String

/-- One element of the `GET /api/companies` response (route.ts lines
24–32): password omitted, `image: row[4] || null`,
`status: row[5] || 'enabled'`, `deleted: row[6] === 'true'`. -/
structure CompanyView where
  id : String
  name : String
  username : String
  image : Option String
  status : String
  deleted : Bool
deriving Repr, DecidableEq

/-- companies/route.ts line 177 and GET line 29: `row[4] || null`. -/
def rowImage (row : Row) : Option String :=
  if row.getD 4 "" = "" then none else some (row.getD 4 "")

/-- The object `GET /api/companies` builds from one companies-sheet row. -/
def viewOfRow (row : Row) : CompanyView :=
  { id := row.getD 0 ""
    name := row.getD 1 ""
    username := row.getD 2 ""
    image := rowImage row
    status := companyStatus row
    deleted := row.getD 6 "" = "true" }

/-- Response of `GET /api/companies`. -/
inductive GetResult where
  | err (status : Nat) (msg : String)
  | ok (companies : List CompanyView)
deriving Repr, DecidableEq

/-- `GET /api/companies` (companies/route.ts lines 9–42). -/
def getCompanies (admin : Bool) (s : Store) : GetResult :=
  if !admin then .err 401 "Unauthorized"
  else
    match lookupSheet s.sheets "companies" with
    | none => .err 500 "Failed to get companies"
    | some data => .ok ((data.drop 1).map viewOfRow)

/-- The ids occurring in a `GET /api/companies` response. -/
def listedIds : GetResult → List String
  | .ok l => l.map (fun v => v.id)
  | .err _ _ => []

/-- The list of entries of a `GET /api/companies` response. -/
def viewsOf : GetResult → List CompanyView
  | .ok l => l
  | .err _ _ => []

/-- The non-deleted subset of a `GET /api/companies` response — the
entries the admin dashboard displays by default. -/
def nonDeletedViews : GetResult → List CompanyView
  | .ok l => l.filter (fun v => !v.deleted)
  | .err _ _ => []

/-- Responses of the company create/update/delete routes. -/
inductive CompanyResult where
  | err (status : Nat) (msg : String)
  | ok (id name username : String) (image : Option String) (status : String) (deleted : Bool)
  | okMsg (msg : String)
deriving Repr, DecidableEq

/-- The header row written when the companies sheet is created lazily
(companies/route.ts line 75). -/
def companiesHeader : Row :=
  ["ID", "Name", "Username", "Password", "Image", "Status", "Deleted"]

/-- Body of `POST /api/companies`; each field may be absent. -/
structure CreateReq where
  name : Option String
  username : Option String
  password : Option String
  image : Option String

/-- `POST /api/companies` (companies/route.ts lines 45–133). -/
def createCompany (env : AdminEnv) (req : CreateReq) (s : Store) : CompanyResult × Store :=
  if !env.admin then (.err 401 "Unauthorized", s)
  else if !truthy req.name || !truthy req.username || !truthy req.password then
    (.err 400 "Name, username, and password are required", s)
  else
    let s :=
      match lookupSheet s.sheets "companies" with
      | some _ => s
      | none =>
          { s with sheets :=
              appendSheet (createSheet s.sheets "companies") "companies" [companiesHeader] }
    match lookupSheet s.sheets "companies" with
    | none => (.err 500 "Failed to create company", s)
    | some existingData =>
      let name := req.name.getD ""
      let username := req.username.getD ""
      if (existingData.drop 1).any (fun row => row.getD 2 "" = username) then
        (.err 400 "Username already exists", s)
      else
        let id := "company_" ++ toString env.nowMs
        let hashedPassword := env.hash (req.password.getD "")
        let imageUrl : Option String :=
          if truthy req.image && env.uploadSuccess then some env.uploadUrl else none
        let newRow : Row :=
          [id, name, username, hashedPassword, imageUrl.getD "", "enabled", "false"]
        let s2 := { s with sheets := appendSheet s.sheets "companies" [newRow] }
        let s3 := { s2 with sheets := createSheet s2.sheets name }
        (.ok id name username imageUrl "enabled" false, s3)

/-- Body of `PUT /api/companies`; `deleted` counts only when it is an
actual boolean (`typeof deleted === 'boolean'`). -/
structure UpdateReq where
  id : Option String
  name : Option String
  username : Option String
  password : Option String
  image : Option String
  status : Option String
  deleted : Option Bool

/-- companies/route.ts line 183:
`companies.some((row, index) => index !== companyIndex && row[2] === username)`. -/
def usernameConflict (companies : Sheet) (companyIndex : Nat) (username : String) : Bool :=
  companies.enum.any (fun p => !(p.1 = companyIndex) && p.2.getD 2 "" = username)

/-- companies/route.ts line 182: a username is provided, differs from
the stored one, and is already taken by another row. -/
def putUsernameRejected (req : UpdateReq) (companies : Sheet) (companyIndex : Nat) : Bool :=
  truthy req.username &&
    !(req.username.getD "" = (companies.getD companyIndex []).getD 2 "") &&
    usernameConflict companies companyIndex (req.username.getD "")

/-- companies/route.ts line 222: a name is provided and differs from the
current one, so the backing sheet is renamed. -/
def putRenames (req : UpdateReq) (currentCompany : Row) : Bool :=
  truthy req.name && !(req.name.getD "" = currentCompany.getD 1 "")

/-- companies/route.ts lines 209–217: the row written back by PUT. -/
def putUpdatedRow (env : AdminEnv) (req : UpdateReq) (id : String) (currentCompany : Row) : Row :=
  let currentName := currentCompany.getD 1 ""
  let currentUsername := currentCompany.getD 2 ""
  let currentPassword := currentCompany.getD 3 ""
  let currentImage := rowImage currentCompany
  let currentStatus := companyStatus currentCompany
  let currentDeleted := currentCompany.getD 6 "" = "true"
  let hashedPassword :=
    if truthy req.password then env.hash (req.password.getD "") else currentPassword
  let imageUrl : Option String :=
    if truthy req.image && env.uploadSuccess then some env.uploadUrl else currentImage
  [id, jsOr req.name currentName, jsOr req.username currentUsername, hashedPassword,
    imageUrl.getD "", jsOr req.status currentStatus,
    match req.deleted with
    | some b => if b then "true" else "false"
    | none => if currentDeleted then "true" else "false"]

/-- `PUT /api/companies` (companies/route.ts lines 136–244). -/
def updateCompany (env : AdminEnv) (req : UpdateReq) (s : Store) : CompanyResult × Store :=
  if !env.admin then (.err 401 "Unauthorized", s)
  else if !truthy req.id then (.err 400 "Company ID is required", s)
  else
    match lookupSheet s.sheets "companies" with
    | none => (.err 500 "Failed to update company", s)
    | some data =>
      let companies := data.drop 1
      let id := req.id.getD ""
      match companies.findIdx? (fun row => row.getD 0 "" = id) with
      | none => (.err 404 "Company not found", s)
      | some companyIndex =>
        let currentCompany := companies.getD companyIndex []
        let currentName := currentCompany.getD 1 ""
        let currentUsername := currentCompany.getD 2 ""
        let currentDeleted := currentCompany.getD 6 "" = "true"
        if putUsernameRejected req companies companyIndex then
          (.err 400 "Username already exists", s)
        else
          let updated := putUpdatedRow env req id currentCompany
          let imageUrl : Option String :=
            if truthy req.image && env.uploadSuccess then some env.uploadUrl
            else rowImage currentCompany
          let s2 := { s with sheets := setSheetRow s.sheets "companies" (companyIndex + 1) updated }
          let s3 :=
            if putRenames req currentCompany then
              { s2 with sheets := renameSheet s2.sheets currentName (req.name.getD "") }
            else s2
          (.ok id (jsOr req.name currentName) (jsOr req.username currentUsername) imageUrl
              (jsOr req.status (companyStatus currentCompany))
              (match req.deleted with
               | some b => b
               | none => currentDeleted), s3)

/-- JavaScript `arr[i] = v` on a row: in-range cells are overwritten,
out-of-range assignment extends with holes, which the spreadsheet stores
as empty cells. -/
def setCell (row : Row) (i : Nat) (v : String) : Row :=
  if i < row.length then row.set i v
  else row ++ List.replicate (i - row.length) "" ++ [v]

/-- `DELETE /api/companies?id=...` (companies/route.ts lines 247–306);
`id` is `searchParams.get('id')`. -/
def deleteCompany (admin : Bool) (id : Option String) (s : Store) : CompanyResult × Store :=
  if !admin then (.err 401 "Unauthorized", s)
  else if !truthy id then (.err 400 "Company ID is required", s)
  else
    match lookupSheet s.sheets "companies" with
    | none => (.err 500 "Failed to mark company as deleted", s)
    | some data =>
      let companies := data.drop 1
      match companies.findIdx? (fun row => row.getD 0 "" = id.getD "") with
      | none => (.err 404 "Company not found", s)
      | some companyIndex =>
        let companyName := (companies.getD companyIndex []).getD 1 ""
        let updatedCompany := setCell (companies.getD companyIndex []) 6 "true"
        let s2 := { s with sheets := setSheetRow s.sheets "companies" (companyIndex + 1) updatedCompany }
        let s3 := { s2 with sheets := renameSheet s2.sheets companyName (companyName ++ "-deleted") }
        (.okMsg ("Company " ++ companyName ++ " marked as deleted successfully"), s3)

/-! ## Concrete fixtures used by the witnesses -/

/-- A registration table with the standard header and one stored row. -/
def wEventTable : Sheet :=
  [["Name", "WhatsApp Number", "ID National Number", "Email", "Education",
    "University and College", "Age", "Gender", "Date"],
   ["Bob", "01234567890", "299", "bob@x.com", "student", "CU", "20", "male", "t0"]]

/-- A companies sheet with one enabled company `Acme`. -/
def wCompanies : Sheet :=
  [companiesHeader, ["c1", "Acme", "acme", "h1", "", "enabled", "false"]]

/-- A store with company `Acme` and its event `Expo`. -/
def wStore : Store :=
  { sheets := [("companies", wCompanies), ("Acme", [["Events"]])]
    tables := [(("Acme", "Expo"), wEventTable)] }

/-- A registration request matching the row already in `wEventTable`. -/
def wReq : RegRequest :=
  { companyName := "Acme", eventName := "Expo", name := "Bob",
    whatsappNumber := "01234567890", nationalId := "299", email := "bob@x.com",
    education := "student", universityCollege := "CU", age := "20", gender := "male" }

/-- Like `wStore` but with company `Acme` disabled. -/
def wStoreDisabled : Store :=
  { sheets := [("companies",
      [companiesHeader, ["c1", "Acme", "acme", "h1", "", "disabled", "false"]]),
      ("Acme", [["Events"]])]
    tables := [(("Acme", "Expo"), wEventTable)] }

/-- A fresh (non-duplicate) registration request. -/
def wReqNew : RegRequest :=
  { wReq with email := "new@x.com", whatsappNumber := "09999999999" }

/-- A request with a missing (empty) name field. -/
def wReqMissing : RegRequest :=
  { wReq with name := "" }

/-- An event table whose header has neither an `Email` nor a
`WhatsApp Number` column, holding a row with the same email and phone as
`wReq`. -/
def wTableNoCols : Sheet :=
  [["FullName", "Phone", "Mail"],
   ["Bob", "01234567890", "bob@x.com"]]

/-- `wStore` with `wTableNoCols` as the event table. -/
def wStoreNoCols : Store :=
  { sheets := [("companies", wCompanies), ("Acme", [["Events"]])]
    tables := [(("Acme", "Expo"), wTableNoCols)] }

/-- Admin environment for the companies endpoints: admin session,
deterministic clock, a concrete hash function, successful upload. -/
def wEnvPut : AdminEnv :=
  { admin := true, nowMs := 7, hash := fun p => "H" ++ p,
    uploadSuccess := true, uploadUrl := "http://img" }

/-- Admin environment in which `uploadImage` reports failure. -/
def wEnvUploadFail : AdminEnv :=
  { admin := true, nowMs := 9, hash := fun p => "H" ++ p,
    uploadSuccess := false, uploadUrl := "http://img" }

/-- Companies sheet whose only row with username `bob` is soft-deleted. -/
def wDeletedCompanies : Sheet :=
  [companiesHeader, ["c1", "Acme", "bob", "h1", "", "enabled", "true"]]

/-- Store holding `wDeletedCompanies`. -/
def wStoreDeletedUser : Store :=
  { sheets := [("companies", wDeletedCompanies)], tables := [] }

/-- Create request reusing the deleted company's username. -/
def wCreateReq : CreateReq :=
  { name := some "New", username := some "bob", password := some "p", image := none }

/-- Create request with a fresh username and an image payload. -/
def wCreateImgReq : CreateReq :=
  { name := some "Beta", username := some "alice", password := some "p", image := some "IMG" }

/-- PUT request carrying only the id: every updatable field absent. -/
def wReqIdOnly : UpdateReq :=
  { id := some "c1", name := none, username := none, password := none,
    image := none, status := none, deleted := none }

/-- PUT request renaming the company to `Beta`. -/
def wReqRename : UpdateReq :=
  { wReqIdOnly with name := some "Beta" }

/-! ## Lemmas about the modelled spreadsheet service -/

theorem lookupTable_appendTable_self (m : List ((String × String) × Sheet))
    (c e : String) (row : Row) (t : Sheet) (h : lookupTable m c e = some t) :
    lookupTable (appendTable m c e row) c e = some (t ++ [row]) := by
  induction m with
  | nil => simp [lookupTable] at h
  | cons hd tl ih =>
    obtain ⟨k, v⟩ := hd
    by_cases hk : k = (c, e)
    · subst hk
      simp [lookupTable] at h
      simp [appendTable, lookupTable, h]
    · simp [lookupTable, hk] at h
      simp [appendTable, lookupTable, hk]
      exact ih h

theorem lookupTable_appendTable_ne (m : List ((String × String) × Sheet))
    (c e c' e' : String) (row : Row) (h : ¬(c' = c ∧ e' = e)) :
    lookupTable (appendTable m c e row) c' e' = lookupTable m c' e' := by
  have hne : ¬((c, e) = (c', e')) := by
    intro hc
    rw [Prod.mk.injEq] at hc
    exact h ⟨hc.1.symm, hc.2.symm⟩
  induction m with
  | nil => simp [appendTable]
  | cons hd tl ih =>
    obtain ⟨k, v⟩ := hd
    by_cases hk : k = (c, e)
    · subst hk
      simp [appendTable, lookupTable, hne]
      exact ih
    · by_cases hk' : k = (c', e')
      · subst hk'
        simp [appendTable, lookupTable, hk]
      · simp [appendTable, lookupTable, hk, hk']
        exact ih

theorem lookupSheet_appendSheet_self (m : List (String × Sheet))
    (name : String) (rows : List Row) (d : Sheet) (h : lookupSheet m name = some d) :
    lookupSheet (appendSheet m name rows) name = some (d ++ rows) := by
  induction m with
  | nil => simp [lookupSheet] at h
  | cons hd tl ih =>
    obtain ⟨k, v⟩ := hd
    by_cases hk : k = name
    · subst hk
      simp [lookupSheet] at h
      simp [appendSheet, lookupSheet, h]
    · simp [lookupSheet, hk] at h
      simp [appendSheet, lookupSheet, hk]
      exact ih h

theorem lookupSheet_appendSheet_ne (m : List (String × Sheet))
    (name k' : String) (rows : List Row) (h : ¬(name = k')) :
    lookupSheet (appendSheet m name rows) k' = lookupSheet m k' := by
  induction m with
  | nil => simp [appendSheet]
  | cons hd tl ih =>
    obtain ⟨k, v⟩ := hd
    by_cases hk : k = name
    · subst hk
      simp [appendSheet, lookupSheet, h]
      exact ih
    · by_cases hk' : k = k'
      · subst hk'
        simp [appendSheet, lookupSheet, hk]
      · simp [appendSheet, lookupSheet, hk, hk']
        exact ih

theorem lookupSheet_setSheetRow_self (m : List (String × Sheet))
    (name : String) (i : Nat) (row : Row) (d : Sheet) (h : lookupSheet m name = some d) :
    lookupSheet (setSheetRow m name i row) name = some (d.set i row) := by
  induction m with
  | nil => simp [lookupSheet] at h
  | cons hd tl ih =>
    obtain ⟨k, v⟩ := hd
    by_cases hk : k = name
    · subst hk
      simp [lookupSheet] at h
      simp [setSheetRow, lookupSheet, h]
    · simp [lookupSheet, hk] at h
      simp [setSheetRow, lookupSheet, hk]
      exact ih h

theorem lookupSheet_setSheetRow_ne (m : List (String × Sheet))
    (name k' : String) (i : Nat) (row : Row) (h : ¬(name = k')) :
    lookupSheet (setSheetRow m name i row) k' = lookupSheet m k' := by
  induction m with
  | nil => simp [setSheetRow]
  | cons hd tl ih =>
    obtain ⟨k, v⟩ := hd
    by_cases hk : k = name
    · subst hk
      simp [setSheetRow, lookupSheet, h]
      exact ih
    · by_cases hk' : k = k'
      · subst hk'
        simp [setSheetRow, lookupSheet, hk]
      · simp [setSheetRow, lookupSheet, hk, hk']
        exact ih

theorem lookupSheet_renameSheet_ne (m : List (String × Sheet))
    (oldName newName k : String) (h1 : ¬(k = oldName)) (h2 : ¬(k = newName)) :
    lookupSheet (renameSheet m oldName newName) k = lookupSheet m k := by
  induction m with
  | nil => simp [renameSheet]
  | cons hd tl ih =>
    obtain ⟨kk, v⟩ := hd
    by_cases hk : kk = oldName
    · subst hk
      have hkn : ¬(newName = k) := fun hc => h2 hc.symm
      have hko : ¬(kk = k) := fun hc => h1 hc.symm
      simp [renameSheet, lookupSheet, hkn, hko]
      exact ih
    · by_cases hk' : kk = k
      · subst hk'
        simp [renameSheet, lookupSheet, hk]
      · simp [renameSheet, lookupSheet, hk, hk']
        exact ih

theorem lookupSheet_renameSheet_old (m : List (String × Sheet))
    (oldName newName : String) (h : ¬(oldName = newName)) :
    lookupSheet (renameSheet m oldName newName) oldName = none := by
  induction m with
  | nil => simp [renameSheet, lookupSheet]
  | cons hd tl ih =>
    obtain ⟨k, v⟩ := hd
    by_cases hk : k = oldName
    · subst hk
      have hn : ¬(newName = k) := fun hc => h hc.symm
      simp [renameSheet, lookupSheet, hn]
      exact ih
    · simp [renameSheet, lookupSheet, hk]
      exact ih

theorem lookupSheet_renameSheet_new (m : List (String × Sheet))
    (oldName newName : String) (hnone : lookupSheet m newName = none) :
    lookupSheet (renameSheet m oldName newName) newName = lookupSheet m oldName := by
  induction m with
  | nil => simp [renameSheet, lookupSheet]
  | cons hd tl ih =>
    obtain ⟨k, v⟩ := hd
    have hknew : ¬(k = newName) := by
      intro hc
      subst hc
      simp [lookupSheet] at hnone
    have hnone' : lookupSheet tl newName = none := by
      simpa [lookupSheet, hknew] using hnone
    by_cases hko : k = oldName
    · subst hko
      simp [renameSheet, lookupSheet]
    · simp [renameSheet, lookupSheet, hko, hknew]
      exact ih hnone'

theorem lookupSheet_createSheet_of_some (m : List (String × Sheet))
    (n k : String) (d : Sheet) (h : lookupSheet m k = some d) :
    lookupSheet (createSheet m n) k = some d := by
  induction m with
  | nil => simp [lookupSheet] at h
  | cons hd tl ih =>
    obtain ⟨kk, v⟩ := hd
    by_cases hk : kk = k
    · subst hk
      simp [lookupSheet] at h
      simp [createSheet, lookupSheet, h]
    · simp [lookupSheet, hk] at h
      simp [createSheet, lookupSheet, hk]
      have := ih h
      simpa [createSheet] using this

/-! ## Lemmas about rows and lists -/

theorem getD_set_ne {α : Type} (l : List α) (i j : Nat) (a d : α) (h : ¬(i = j)) :
    (l.set i a).getD j d = l.getD j d := by
  rw [List.getD_eq_getElem?_getD, List.getD_eq_getElem?_getD, List.getElem?_set_ne h]

theorem drop_one_set_succ {α : Type} (l : List α) (i : Nat) (a : α) :
    (l.set (i + 1) a).drop 1 = (l.drop 1).set i a := by
  cases l <;> rfl

theorem mem_set_cases {α : Type} (l : List α) (i : Nat) (a x : α)
    (hx : x ∈ l.set i a) : x = a ∨ x ∈ l.eraseIdx i := by
  induction l generalizing i with
  | nil => simp at hx
  | cons b t ih =>
    cases i with
    | zero =>
      simp only [List.set] at hx
      rcases List.mem_cons.mp hx with h | h
      · exact Or.inl h
      · exact Or.inr (by simpa [List.eraseIdx] using h)
    | succ n =>
      simp only [List.set] at hx
      rcases List.mem_cons.mp hx with h | h
      · exact Or.inr (by simp [List.eraseIdx, h])
      · rcases ih n h with h' | h'
        · exact Or.inl h'
        · exact Or.inr (by simp [List.eraseIdx, h'])

theorem getD_setCell_self (row : Row) (i : Nat) (v : String) :
    (setCell row i v).getD i "" = v := by
  unfold setCell
  by_cases h : i < row.length
  · simp only [h, if_true]
    rw [List.getD_eq_getElem?_getD, List.getElem?_set_self h]
    rfl
  · simp only [h, if_false]
    rw [List.append_assoc, List.getD_eq_getElem?_getD]
    rw [List.getElem?_append_right (by omega)]
    rw [List.getElem?_append_right (by simp)]
    simp

theorem getD_setCell_lt (row : Row) (i j : Nat) (v : String) (hj : j < i) :
    (setCell row i v).getD j "" = row.getD j "" := by
  unfold setCell
  by_cases h : i < row.length
  · simp only [h, if_true]
    exact getD_set_ne row i j v "" (by omega)
  · simp only [h, if_false]
    rw [List.append_assoc, List.getD_eq_getElem?_getD, List.getD_eq_getElem?_getD]
    by_cases hjr : j < row.length
    · rw [List.getElem?_append_left hjr]
    · rw [List.getElem?_append_right (by omega)]
      rw [List.getElem?_eq_none (l := row) (by omega)]
      rw [List.getElem?_append_left (by simp; omega)]
      simp [List.getElem?_replicate, show j - row.length < i - row.length by omega]

theorem companyStatus_ne_empty (row : Row) : ¬(companyStatus row = "") := by
  unfold companyStatus
  by_cases h : row.getD 5 "" = ""
  · rw [if_pos h]
    decide
  · rw [if_neg h]
    exact h

/-! ## Registration endpoint: claim theorems -/

/-- Claim C1: when a registration request reaches the duplicate scan
(all field validations pass, the company exists and is enabled, the
event exists and is enabled) and its email or WhatsApp number equals the
corresponding header column of some already-stored registration row of
the same event, the endpoint returns status 400 with error
"You are already registered for this event" and leaves the store
unchanged. -/
theorem register_duplicate_rejected
    (nowIso : String) (writeOk : Bool) (r : RegRequest) (s : Store)
    (sheetData companiesData tableData : Sheet) (company : Row)
    (hmf : missingFields r = false)
    (hem : emailRegexTest r.email = true)
    (hph : phoneRegexTest r.whatsappNumber = true)
    (hcs : lookupSheet s.sheets r.companyName = some sheetData)
    (hcne : sheetData.isEmpty = false)
    (hco : lookupSheet s.sheets "companies" = some companiesData)
    (hfind : findCompanyRow companiesData r.companyName = some company)
    (hstat : ¬(companyStatus company = "disabled"))
    (ht : lookupTable s.tables r.companyName r.eventName = some tableData)
    (htne : tableData.isEmpty = false)
    (hed : eventDisabled tableData = false)
    (hdup : isDuplicate tableData r.email r.whatsappNumber = true) :
    registerPost nowIso writeOk r s =
      (.err 400 "You are already registered for this event", s) := by
  unfold registerPost
  simp only [hmf, hem, hph, hcs, hcne, hco, hfind, hstat, ht, htne, hed, hdup]
  simp

/-- Witness for C1: the second of two identical submissions against
`wStore` is rejected with 400. -/
theorem register_duplicate_rejected_witness :
    registerPost "t1" true wReq wStore =
      (.err 400 "You are already registered for this event", wStore) :=
  register_duplicate_rejected "t1" true wReq wStore
    [["Events"]] wCompanies wEventTable
    ["c1", "Acme", "acme", "h1", "", "enabled", "false"]
    rfl rfl rfl rfl rfl rfl rfl (by decide) rfl rfl rfl rfl

/-- Claim C4: when the company row found in the companies sheet has
status `disabled`, a registration request that passes all field
validations (and whose company sheet exists) returns status 403 and
appends no row: the store is unchanged. -/
theorem register_company_disabled_403
    (nowIso : String) (writeOk : Bool) (r : RegRequest) (s : Store)
    (sheetData companiesData : Sheet) (company : Row)
    (hmf : missingFields r = false)
    (hem : emailRegexTest r.email = true)
    (hph : phoneRegexTest r.whatsappNumber = true)
    (hcs : lookupSheet s.sheets r.companyName = some sheetData)
    (hcne : sheetData.isEmpty = false)
    (hco : lookupSheet s.sheets "companies" = some companiesData)
    (hfind : findCompanyRow companiesData r.companyName = some company)
    (hstat : companyStatus company = "disabled") :
    registerPost nowIso writeOk r s =
      (.err 403 "Company is disabled, registration is not available", s) := by
  unfold registerPost
  simp only [hmf, hem, hph, hcs, hcne, hco, hfind, hstat]
  simp

/-- Witness for C4: registration against the disabled company of
`wStoreDisabled` returns 403 and leaves the store unchanged. -/
theorem register_company_disabled_403_witness :
    registerPost "t1" true wReqNew wStoreDisabled =
      (.err 403 "Company is disabled, registration is not available", wStoreDisabled) :=
  register_company_disabled_403 "t1" true wReqNew wStoreDisabled
    [["Events"]] [companiesHeader, ["c1", "Acme", "acme", "h1", "", "disabled", "false"]]
    ["c1", "Acme", "acme", "h1", "", "disabled", "false"]
    rfl rfl rfl rfl rfl rfl rfl rfl

/-- Claim C5: a registration request that passes every validation,
existence, status and duplicate check appends exactly one row — the
registration fields in order with the timestamp as last column — to the
event's table, returns the success payload echoing the submitted name,
email and that same timestamp, and modifies no other table and no named
sheet. -/
theorem register_success_appends_row
    (nowIso : String) (r : RegRequest) (s : Store)
    (sheetData companiesData tableData : Sheet) (company : Row)
    (hmf : missingFields r = false)
    (hem : emailRegexTest r.email = true)
    (hph : phoneRegexTest r.whatsappNumber = true)
    (hcs : lookupSheet s.sheets r.companyName = some sheetData)
    (hcne : sheetData.isEmpty = false)
    (hco : lookupSheet s.sheets "companies" = some companiesData)
    (hfind : findCompanyRow companiesData r.companyName = some company)
    (hstat : ¬(companyStatus company = "disabled"))
    (ht : lookupTable s.tables r.companyName r.eventName = some tableData)
    (htne : tableData.isEmpty = false)
    (hed : eventDisabled tableData = false)
    (hdup : isDuplicate tableData r.email r.whatsappNumber = false) :
    registerPost nowIso true r s =
      (.ok r.name r.email nowIso,
        { s with tables := appendTable s.tables r.companyName r.eventName (newRegistrationRow r nowIso) }) ∧
    lookupTable (registerPost nowIso true r s).2.tables r.companyName r.eventName =
      some (tableData ++ [newRegistrationRow r nowIso]) ∧
    (∀ c e, ¬(c = r.companyName ∧ e = r.eventName) →
      lookupTable (registerPost nowIso true r s).2.tables c e = lookupTable s.tables c e) ∧
    (registerPost nowIso true r s).2.sheets = s.sheets := by
  have hmain : registerPost nowIso true r s =
      (.ok r.name r.email nowIso,
        { s with tables := appendTable s.tables r.companyName r.eventName (newRegistrationRow r nowIso) }) := by
    unfold registerPost
    simp only [hmf, hem, hph, hcs, hcne, hco, hfind, hstat, ht, htne, hed, hdup]
    simp
  refine ⟨hmain, ?_, ?_, ?_⟩
  · rw [hmain]
    exact lookupTable_appendTable_self _ _ _ _ _ ht
  · intro c e hce
    rw [hmain]
    exact lookupTable_appendTable_ne _ _ _ _ _ _ hce
  · rw [hmain]

/-- Witness for C5: a fresh registration against `wStore` succeeds and
appends exactly the expected row. -/
theorem register_success_appends_row_witness :
    registerPost "t1" true wReqNew wStore =
      (.ok "Bob" "new@x.com" "t1",
        { wStore with tables := appendTable wStore.tables "Acme" "Expo" (newRegistrationRow wReqNew "t1") }) :=
  (register_success_appends_row "t1" wReqNew wStore
    [["Events"]] wCompanies wEventTable
    ["c1", "Acme", "acme", "h1", "", "enabled", "false"]
    rfl rfl rfl rfl rfl rfl rfl (by decide) rfl rfl rfl rfl).1

/-- Every run of the registration endpoint either leaves the store
unchanged or returns the success payload. -/
theorem registerPost_store_or_ok (nowIso : String) (writeOk : Bool)
    (r : RegRequest) (s : Store) :
    (registerPost nowIso writeOk r s).2 = s ∨
      (registerPost nowIso writeOk r s).1 = .ok r.name r.email nowIso := by
  unfold registerPost
  repeat' split
  all_goals simp

/-- Claim C9: whenever the registration endpoint returns an error
response (any non-success result), it has appended nothing: the store is
unchanged on every error path. -/
theorem register_error_leaves_store_unchanged
    (nowIso : String) (writeOk : Bool) (r : RegRequest) (s : Store)
    (herr : (registerPost nowIso writeOk r s).1.isErr = true) :
    (registerPost nowIso writeOk r s).2 = s := by
  rcases registerPost_store_or_ok nowIso writeOk r s with h | h
  · exact h
  · rw [h] at herr
    simp [RegResult.isErr] at herr

/-- Witness for C9: a request with a missing field errors and leaves
`wStore` unchanged. -/
theorem register_error_leaves_store_unchanged_witness :
    (registerPost "t1" true wReqMissing wStore).2 = wStore :=
  register_error_leaves_store_unchanged "t1" true wReqMissing wStore rfl

/-- When the event table header has neither an `Email` nor a
`WhatsApp Number` column, the duplicate scan matches no row. -/
theorem isDuplicate_false_of_missing_columns (tableData : Sheet) (email wa : String)
    (h1 : (tableData.getD 0 []).findIdx? (fun h => h = "Email") = none)
    (h2 : (tableData.getD 0 []).findIdx? (fun h => h = "WhatsApp Number") = none) :
    isDuplicate tableData email wa = false := by
  unfold isDuplicate
  simp only [h1, h2]
  simp

/-- Claim C10: against an event table whose header contains neither an
`Email` nor a `WhatsApp Number` column, a registration identical in
email and phone to an already-stored row is not rejected as a duplicate:
it succeeds and is appended. -/
theorem register_no_columns_accepts_duplicate
    (nowIso : String) (r : RegRequest) (s : Store)
    (sheetData companiesData tableData : Sheet) (company stored : Row)
    (hmf : missingFields r = false)
    (hem : emailRegexTest r.email = true)
    (hph : phoneRegexTest r.whatsappNumber = true)
    (hcs : lookupSheet s.sheets r.companyName = some sheetData)
    (hcne : sheetData.isEmpty = false)
    (hco : lookupSheet s.sheets "companies" = some companiesData)
    (hfind : findCompanyRow companiesData r.companyName = some company)
    (hstat : ¬(companyStatus company = "disabled"))
    (ht : lookupTable s.tables r.companyName r.eventName = some tableData)
    (htne : tableData.isEmpty = false)
    (hed : eventDisabled tableData = false)
    (hnoEmailCol : (tableData.getD 0 []).findIdx? (fun h => h = "Email") = none)
    (hnoWaCol : (tableData.getD 0 []).findIdx? (fun h => h = "WhatsApp Number") = none)
    (hstored : stored ∈ tableData.drop 1)
    (hstoredEmail : r.email ∈ stored)
    (hstoredWa : r.whatsappNumber ∈ stored) :
    registerPost nowIso true r s =
      (.ok r.name r.email nowIso,
        { s with tables := appendTable s.tables r.companyName r.eventName (newRegistrationRow r nowIso) }) := by
  have hdup := isDuplicate_false_of_missing_columns tableData r.email r.whatsappNumber
    hnoEmailCol hnoWaCol
  unfold registerPost
  simp only [hmf, hem, hph, hcs, hcne, hco, hfind, hstat, ht, htne, hed, hdup]
  simp

/-- Witness for C10: `wStoreNoCols` already stores a row with the email
and phone of `wReq`, yet the identical submission is accepted and
appended. -/
theorem register_no_columns_accepts_duplicate_witness :
    registerPost "t1" true wReq wStoreNoCols =
      (.ok "Bob" "bob@x.com" "t1",
        { wStoreNoCols with tables := appendTable wStoreNoCols.tables "Acme" "Expo" (newRegistrationRow wReq "t1") }) :=
  register_no_columns_accepts_duplicate "t1" wReq wStoreNoCols
    [["Events"]] wCompanies wTableNoCols
    ["c1", "Acme", "acme", "h1", "", "enabled", "false"]
    ["Bob", "01234567890", "bob@x.com"]
    rfl rfl rfl rfl rfl rfl rfl (by decide) rfl rfl rfl rfl rfl
    (by decide) (by decide) (by decide)

/-! ## Companies endpoint: claim theorems -/

/-- Claim C3 (amended): a create request with name, username and
password present whose username equals the username of ANY existing row
of the companies sheet — deleted or not — returns status 400 with error
"Username already exists" and appends no row: the store is unchanged.
(The route scans all rows, so uniqueness is enforced over deleted
companies too, not only among non-deleted ones.) -/
theorem create_rejects_existing_username
    (env : AdminEnv) (req : CreateReq) (s : Store) (data : Sheet)
    (hadmin : env.admin = true)
    (hname : truthy req.name = true)
    (huser : truthy req.username = true)
    (hpass : truthy req.password = true)
    (hco : lookupSheet s.sheets "companies" = some data)
    (hdup : (data.drop 1).any (fun row => row.getD 2 "" = req.username.getD "") = true) :
    createCompany env req s = (.err 400 "Username already exists", s) := by
  unfold createCompany
  simp only [hadmin, hname, huser, hpass, hco, hdup]
  simp

/-- Witness for C3: creating against `wStoreDeletedUser`, whose only
`bob` row is deleted, is rejected with 400. -/
theorem create_rejects_existing_username_witness :
    createCompany wEnvPut wCreateReq wStoreDeletedUser =
      (.err 400 "Username already exists", wStoreDeletedUser) :=
  create_rejects_existing_username wEnvPut wCreateReq wStoreDeletedUser wDeletedCompanies
    rfl rfl rfl rfl rfl rfl

/-- Counterexample for C3 as stated: the username `bob` exists only on a
soft-deleted company row (`deleted = "true"`), yet the create request is
still rejected with 400 — so username uniqueness is NOT enforced only
among non-deleted companies. -/
theorem create_username_check_includes_deleted :
    (viewOfRow (wDeletedCompanies.getD 1 [])).deleted = true ∧
    createCompany wEnvPut wCreateReq wStoreDeletedUser =
      (.err 400 "Username already exists", wStoreDeletedUser) := by
  constructor
  · rfl
  · rfl

/-- Claim C8: a create request carrying an image whose upload fails
(`uploadResult.success` false) still succeeds — the company row is
appended with an empty image cell, the response reports a null image —
and the companies sheet gains exactly that row. -/
theorem create_image_upload_failure_still_succeeds
    (env : AdminEnv) (req : CreateReq) (s : Store) (data : Sheet)
    (hadmin : env.admin = true)
    (hname : truthy req.name = true)
    (huser : truthy req.username = true)
    (hpass : truthy req.password = true)
    (hco : lookupSheet s.sheets "companies" = some data)
    (hnodup : (data.drop 1).any (fun row => row.getD 2 "" = req.username.getD "") = false)
    (himg : truthy req.image = true)
    (hup : env.uploadSuccess = false) :
    createCompany env req s =
      (.ok ("company_" ++ toString env.nowMs) (req.name.getD "") (req.username.getD "")
          none "enabled" false,
        { s with sheets := createSheet (appendSheet s.sheets "companies" [["company_" ++ toString env.nowMs, req.name.getD "", req.username.getD "", env.hash (req.password.getD ""), "", "enabled", "false"]]) (req.name.getD "") }) ∧
    lookupSheet (createCompany env req s).2.sheets "companies" =
      some (data ++ [["company_" ++ toString env.nowMs, req.name.getD "", req.username.getD "", env.hash (req.password.getD ""), "", "enabled", "false"]]) := by
  have hmain : createCompany env req s =
      (.ok ("company_" ++ toString env.nowMs) (req.name.getD "") (req.username.getD "")
          none "enabled" false,
        { s with sheets := createSheet (appendSheet s.sheets "companies" [["company_" ++ toString env.nowMs, req.name.getD "", req.username.getD "", env.hash (req.password.getD ""), "", "enabled", "false"]]) (req.name.getD "") }) := by
    unfold createCompany
    simp only [hadmin, hname, huser, hpass, hco, hnodup, himg, hup]
    simp
  refine ⟨hmain, ?_⟩
  rw [hmain]
  exact lookupSheet_createSheet_of_some _ _ _ _
    (lookupSheet_appendSheet_self _ _ _ _ hco)

/-- Witness for C8: creating `Beta` with an image while the upload
collaborator fails still succeeds with a null image. -/
theorem create_image_upload_failure_still_succeeds_witness :
    createCompany wEnvUploadFail wCreateImgReq wStore =
      (.ok "company_9" "Beta" "alice" none "enabled" false,
        { wStore with sheets := createSheet (appendSheet wStore.sheets "companies" [["company_9", "Beta", "alice", "Hp", "", "enabled", "false"]]) "Beta" }) :=
  (create_image_upload_failure_still_succeeds wEnvUploadFail wCreateImgReq wStore wCompanies
    rfl rfl rfl rfl rfl rfl rfl rfl).1

/-- Success-path equation of `DELETE /api/companies`: with an admin
session, a non-empty id and a companies sheet in which the id resolves
to data row `i`, the route marks the row deleted and renames the
company's sheet. -/
theorem deleteCompany_spec (s : Store) (data : Sheet) (id : String) (i : Nat)
    (hidne : ¬(id = ""))
    (hco : lookupSheet s.sheets "companies" = some data)
    (hfind : (data.drop 1).findIdx? (fun row => row.getD 0 "" = id) = some i) :
    deleteCompany true (some id) s =
      (.okMsg ("Company " ++ ((data.drop 1).getD i []).getD 1 "" ++ " marked as deleted successfully"),
       { s with sheets := renameSheet (setSheetRow s.sheets "companies" (i + 1) (setCell ((data.drop 1).getD i []) 6 "true")) (((data.drop 1).getD i []).getD 1 "") ((((data.drop 1).getD i []).getD 1 "") ++ "-deleted") }) := by
  have htid : truthy (some id) = true := by simp [truthy, hidne]
  unfold deleteCompany
  simp [htid, hco]
  have hfind' := hfind
  simp at hfind'
  simp [hfind']

/-- Claim C2 (amended): soft-deleting an existing company returns the
success message, sets the row's deleted cell to "true", renames its
backing sheet to `{name}-deleted` (the old name no longer resolves),
and afterwards the `GET /api/companies` listing still contains the
company — flagged `deleted = true` — so it is absent from the
non-deleted subset of the listing, the view the admin dashboard shows by
default. -/
theorem delete_company_marks_deleted_and_renames
    (s : Store) (data companySheet : Sheet) (id : String) (i : Nat)
    (hidne : ¬(id = ""))
    (hco : lookupSheet s.sheets "companies" = some data)
    (hfind : (data.drop 1).findIdx? (fun row => row.getD 0 "" = id) = some i)
    (hi : i < (data.drop 1).length)
    (hrowid : ((data.drop 1).getD i []).getD 0 "" = id)
    (huniq : ∀ row ∈ (data.drop 1).eraseIdx i, ¬(row.getD 0 "" = id))
    (hcn : ¬(((data.drop 1).getD i []).getD 1 "" = "companies"))
    (hnn : ¬((((data.drop 1).getD i []).getD 1 "") ++ "-deleted" = "companies"))
    (hold : lookupSheet s.sheets (((data.drop 1).getD i []).getD 1 "") = some companySheet)
    (hnewnone : lookupSheet s.sheets ((((data.drop 1).getD i []).getD 1 "") ++ "-deleted") = none) :
    (deleteCompany true (some id) s).1 =
      .okMsg ("Company " ++ ((data.drop 1).getD i []).getD 1 "" ++ " marked as deleted successfully") ∧
    lookupSheet (deleteCompany true (some id) s).2.sheets "companies" =
      some (data.set (i + 1) (setCell ((data.drop 1).getD i []) 6 "true")) ∧
    (viewOfRow (setCell ((data.drop 1).getD i []) 6 "true")).deleted = true ∧
    (viewOfRow (setCell ((data.drop 1).getD i []) 6 "true")).id = id ∧
    lookupSheet (deleteCompany true (some id) s).2.sheets (((data.drop 1).getD i []).getD 1 "") = none ∧
    lookupSheet (deleteCompany true (some id) s).2.sheets ((((data.drop 1).getD i []).getD 1 "") ++ "-deleted") = some companySheet ∧
    (∀ v ∈ nonDeletedViews (getCompanies true (deleteCompany true (some id) s).2), ¬(v.id = id)) ∧
    (∃ v ∈ viewsOf (getCompanies true (deleteCompany true (some id) s).2), v.id = id ∧ v.deleted = true) := by
  have hspec := deleteCompany_spec s data id i hidne hco hfind
  have hnedel : ¬(((data.drop 1).getD i []).getD 1 "" =
      (((data.drop 1).getD i []).getD 1 "") ++ "-deleted") := by
    intro hc
    have hlen := congrArg String.length hc
    rw [String.length_append] at hlen
    have h8 : ("-deleted" : String).length = 8 := rfl
    omega
  have hs2 : (deleteCompany true (some id) s).2.sheets =
      renameSheet (setSheetRow s.sheets "companies" (i + 1) (setCell ((data.drop 1).getD i []) 6 "true")) (((data.drop 1).getD i []).getD 1 "") ((((data.drop 1).getD i []).getD 1 "") ++ "-deleted") := by
    rw [hspec]
  have hres : (deleteCompany true (some id) s).1 =
      .okMsg ("Company " ++ ((data.drop 1).getD i []).getD 1 "" ++ " marked as deleted successfully") := by
    rw [hspec]
  have hcompanies : lookupSheet (deleteCompany true (some id) s).2.sheets "companies" =
      some (data.set (i + 1) (setCell ((data.drop 1).getD i []) 6 "true")) := by
    rw [hs2]
    rw [lookupSheet_renameSheet_ne _ _ _ _ (fun hc => hcn hc.symm) (fun hc => hnn hc.symm)]
    exact lookupSheet_setSheetRow_self _ _ _ _ _ hco
  have hudel : (viewOfRow (setCell ((data.drop 1).getD i []) 6 "true")).deleted = true := by
    simp only [viewOfRow]
    rw [getD_setCell_self]
    decide
  have huid : (viewOfRow (setCell ((data.drop 1).getD i []) 6 "true")).id = id := by
    simp only [viewOfRow]
    rw [getD_setCell_lt _ 6 0 _ (by omega)]
    exact hrowid
  have hget : getCompanies true (deleteCompany true (some id) s).2 =
      .ok (((data.drop 1).set i (setCell ((data.drop 1).getD i []) 6 "true")).map viewOfRow) := by
    unfold getCompanies
    rw [hcompanies]
    simp [drop_one_set_succ]
  refine ⟨hres, hcompanies, hudel, huid, ?_, ?_, ?_, ?_⟩
  · rw [hs2]
    exact lookupSheet_renameSheet_old _ _ _ hnedel
  · rw [hs2]
    rw [lookupSheet_renameSheet_new _ _ _
      (by rw [lookupSheet_setSheetRow_ne _ _ _ _ _ (fun hc => hnn hc.symm)]; exact hnewnone)]
    rw [lookupSheet_setSheetRow_ne _ _ _ _ _ (fun hc => hcn hc.symm)]
    exact hold
  · intro v hv
    rw [hget] at hv
    simp only [nonDeletedViews, List.mem_filter] at hv
    obtain ⟨hvmem, hvnd⟩ := hv
    obtain ⟨row', hrow', hveq⟩ := List.mem_map.mp hvmem
    rcases mem_set_cases _ _ _ _ hrow' with hcase | hcase
    · rw [← hveq, hcase] at hvnd
      rw [hudel] at hvnd
      simp at hvnd
    · intro hvid
      apply huniq row' hcase
      rw [← hveq] at hvid
      exact hvid
  · refine ⟨viewOfRow (setCell ((data.drop 1).getD i []) 6 "true"), ?_, huid, hudel⟩
    rw [hget]
    simp only [viewsOf]
    exact List.mem_map_of_mem viewOfRow (List.mem_set _ i hi _)

/-- Witness for C2 (amended): deleting company `c1` of `wStore`. -/
theorem delete_company_marks_deleted_and_renames_witness :
    (deleteCompany true (some "c1") wStore).1 =
      .okMsg "Company Acme marked as deleted successfully" ∧
    lookupSheet (deleteCompany true (some "c1") wStore).2.sheets "companies" =
      some (wCompanies.set 1 (setCell ((wCompanies.drop 1).getD 0 []) 6 "true")) ∧
    (viewOfRow (setCell ((wCompanies.drop 1).getD 0 []) 6 "true")).deleted = true ∧
    (viewOfRow (setCell ((wCompanies.drop 1).getD 0 []) 6 "true")).id = "c1" ∧
    lookupSheet (deleteCompany true (some "c1") wStore).2.sheets "Acme" = none ∧
    lookupSheet (deleteCompany true (some "c1") wStore).2.sheets ("Acme" ++ "-deleted") =
      some [["Events"]] ∧
    (∀ v ∈ nonDeletedViews (getCompanies true (deleteCompany true (some "c1") wStore).2),
      ¬(v.id = "c1")) ∧
    (∃ v ∈ viewsOf (getCompanies true (deleteCompany true (some "c1") wStore).2),
      v.id = "c1" ∧ v.deleted = true) :=
  delete_company_marks_deleted_and_renames wStore wCompanies [["Events"]] "c1" 0
    (by decide) rfl rfl (by decide) rfl (by decide) (by decide) (by decide) rfl rfl

/-- Counterexample for C2 as stated: after the soft delete, `GET
/api/companies` still returns the company — the listing contains exactly
the entry with id `c1`, now with `deleted = true`; the company does not
disappear from the endpoint's response. -/
theorem delete_company_still_in_get_listing :
    getCompanies true (deleteCompany true (some "c1") wStore).2 =
      .ok [{ id := "c1", name := "Acme", username := "acme", image := none,
             status := "enabled", deleted := true }] := by
  rfl

/-- Two rows with the same cell 4 have the same parsed image. -/
theorem rowImage_congr (u r : Row) (h : u.getD 4 "" = r.getD 4 "") :
    rowImage u = rowImage r := by
  unfold rowImage
  rw [h]

/-- Writing a parsed image back as a cell round-trips the cell. -/
theorem rowImage_getD_empty (r : Row) : (rowImage r).getD "" = r.getD 4 "" := by
  unfold rowImage
  by_cases h4 : r.getD 4 "" = ""
  · rw [if_pos h4, h4]
    rfl
  · rw [if_neg h4]
    rfl

/-- A rename happens only when the provided name differs from the
current one. -/
theorem putRenames_ne (req : UpdateReq) (row : Row) (h : putRenames req row = true) :
    ¬(req.name.getD "" = row.getD 1 "") := by
  unfold putRenames at h
  intro hc
  rw [hc] at h
  simp at h

/-- If a row's cell 5 equals an already-defaulted status, the status of
that row is that value. -/
theorem companyStatus_getD5_eq (u : Row) (x : String) (h : u.getD 5 "" = x)
    (hx : ¬(x = "")) : companyStatus u = x := by
  unfold companyStatus
  rw [h, if_neg hx]

/-- Success-path equation of `PUT /api/companies`: with an admin
session, a non-empty id resolving to data row `i`, and no username
conflict, the route writes `putUpdatedRow` back at row `i + 1` and
renames the backing sheet exactly when `putRenames` holds. -/
theorem updateCompany_spec (env : AdminEnv) (req : UpdateReq) (s : Store)
    (data : Sheet) (id : String) (i : Nat)
    (hadmin : env.admin = true)
    (hid : req.id = some id)
    (hidne : ¬(id = ""))
    (hco : lookupSheet s.sheets "companies" = some data)
    (hfind : (data.drop 1).findIdx? (fun row => row.getD 0 "" = id) = some i)
    (hguard : putUsernameRejected req (data.drop 1) i = false) :
    updateCompany env req s =
      (.ok id (jsOr req.name (((data.drop 1).getD i []).getD 1 ""))
          (jsOr req.username (((data.drop 1).getD i []).getD 2 ""))
          (if truthy req.image && env.uploadSuccess then some env.uploadUrl else rowImage ((data.drop 1).getD i []))
          (jsOr req.status (companyStatus ((data.drop 1).getD i [])))
          (match req.deleted with
           | some b => b
           | none => (((data.drop 1).getD i []).getD 6 "" = "true")),
       if putRenames req ((data.drop 1).getD i []) then
         { s with sheets := renameSheet (setSheetRow s.sheets "companies" (i + 1) (putUpdatedRow env req id ((data.drop 1).getD i []))) (((data.drop 1).getD i []).getD 1 "") (req.name.getD "") }
       else { s with sheets := setSheetRow s.sheets "companies" (i + 1) (putUpdatedRow env req id ((data.drop 1).getD i [])) }) := by
  have htid : truthy req.id = true := by rw [hid]; simp [truthy, hidne]
  have htid2 : truthy (some id) = true := by simp [truthy, hidne]
  unfold updateCompany
  simp [hadmin, htid, hid, hco, htid2]
  have hfind' := hfind
  simp at hfind'
  have hguard' := hguard
  rw [List.drop_one] at hguard'
  simp [hfind', hguard', htid2]

/-- Claim C6: in a PUT update of an existing company, every field among
name, username, password, image, status, deleted that is absent from the
request keeps its current value in the written row (image, status and
deleted compared as the route itself reads them back), the id is
unchanged, the stored password hash is replaced exactly when a password
is provided, and the rows of all other companies are unchanged. -/
theorem update_absent_fields_keep_values (env : AdminEnv) (req : UpdateReq)
    (s : Store) (data : Sheet) (id : String) (i : Nat)
    (hadmin : env.admin = true)
    (hid : req.id = some id)
    (hidne : ¬(id = ""))
    (hco : lookupSheet s.sheets "companies" = some data)
    (hfind : (data.drop 1).findIdx? (fun row => row.getD 0 "" = id) = some i)
    (hguard : putUsernameRejected req (data.drop 1) i = false)
    (hcn : ¬(((data.drop 1).getD i []).getD 1 "" = "companies"))
    (hnn : ¬(req.name.getD "" = "companies")) :
    (putUpdatedRow env req id ((data.drop 1).getD i [])).getD 0 "" = id ∧
    (req.name = none →
      (putUpdatedRow env req id ((data.drop 1).getD i [])).getD 1 "" =
        ((data.drop 1).getD i []).getD 1 "") ∧
    (req.username = none →
      (putUpdatedRow env req id ((data.drop 1).getD i [])).getD 2 "" =
        ((data.drop 1).getD i []).getD 2 "") ∧
    (truthy req.password = false →
      (putUpdatedRow env req id ((data.drop 1).getD i [])).getD 3 "" =
        ((data.drop 1).getD i []).getD 3 "") ∧
    (∀ p, req.password = some p → ¬(p = "") →
      (putUpdatedRow env req id ((data.drop 1).getD i [])).getD 3 "" = env.hash p) ∧
    (req.image = none →
      (viewOfRow (putUpdatedRow env req id ((data.drop 1).getD i []))).image =
        (viewOfRow ((data.drop 1).getD i [])).image) ∧
    (req.status = none →
      (viewOfRow (putUpdatedRow env req id ((data.drop 1).getD i []))).status =
        (viewOfRow ((data.drop 1).getD i [])).status) ∧
    (req.deleted = none →
      (viewOfRow (putUpdatedRow env req id ((data.drop 1).getD i []))).deleted =
        (viewOfRow ((data.drop 1).getD i [])).deleted) ∧
    lookupSheet (updateCompany env req s).2.sheets "companies" =
      some (data.set (i + 1) (putUpdatedRow env req id ((data.drop 1).getD i []))) ∧
    (∀ j, ¬(j = i + 1) →
      (data.set (i + 1) (putUpdatedRow env req id ((data.drop 1).getD i []))).getD j [] =
        data.getD j []) := by
  have hspec := updateCompany_spec env req s data id i hadmin hid hidne hco hfind hguard
  refine ⟨?_, ?_, ?_, ?_, ?_, ?_, ?_, ?_, ?_, ?_⟩
  · simp [putUpdatedRow]
  · intro hname
    simp [putUpdatedRow, hname, jsOr]
  · intro huser
    simp [putUpdatedRow, huser, jsOr]
  · intro hpass
    simp [putUpdatedRow, hpass]
  · intro p hp hpne
    have htp : truthy (some p) = true := by simp [truthy, hpne]
    simp [putUpdatedRow, hp, htp]
  · intro himg
    simp only [viewOfRow]
    apply rowImage_congr
    simp [putUpdatedRow, himg, truthy, rowImage_getD_empty]
  · intro hstatus
    simp only [viewOfRow]
    exact companyStatus_getD5_eq _ _
      (by simp [putUpdatedRow, hstatus, jsOr])
      (companyStatus_ne_empty ((data.drop 1).getD i []))
  · intro hdel
    by_cases h6 : ((data.drop 1).getD i []).getD 6 "" = "true" <;>
      simp [putUpdatedRow, viewOfRow, hdel, h6]
  · by_cases hr : putRenames req ((data.drop 1).getD i []) = true
    · rw [hspec]
      simp only [hr, if_true]
      rw [lookupSheet_renameSheet_ne _ _ _ _ (fun hc => hcn hc.symm) (fun hc => hnn hc.symm)]
      exact lookupSheet_setSheetRow_self _ _ _ _ _ hco
    · rw [hspec]
      simp only [Bool.not_eq_true] at hr
      simp only [hr, Bool.false_eq_true, if_false]
      exact lookupSheet_setSheetRow_self _ _ _ _ _ hco
  · intro j hj
    exact getD_set_ne data (i + 1) j _ [] (fun hc => hj hc.symm)

/-- Witness for C6: a PUT carrying only the id against `wStore` keeps
the stored password hash and writes the row back in place. -/
theorem update_absent_fields_keep_values_witness :
    (putUpdatedRow wEnvPut wReqIdOnly "c1" ((wCompanies.drop 1).getD 0 [])).getD 3 "" =
      ((wCompanies.drop 1).getD 0 []).getD 3 "" ∧
    lookupSheet (updateCompany wEnvPut wReqIdOnly wStore).2.sheets "companies" =
      some (wCompanies.set 1 (putUpdatedRow wEnvPut wReqIdOnly "c1" ((wCompanies.drop 1).getD 0 []))) :=
  have h := update_absent_fields_keep_values wEnvPut wReqIdOnly wStore wCompanies "c1" 0
    rfl rfl (by decide) rfl rfl rfl (by decide) (by decide)
  ⟨h.2.2.2.1 rfl, h.2.2.2.2.2.2.2.2.1⟩

/-- Claim C7: a PUT update of an existing company renames the backing
sheet from the old name to the new one exactly when a name is provided
and differs from the current name (`putRenames`); when the name is
absent or unchanged, no sheet is renamed. -/
theorem update_name_change_renames_sheet (env : AdminEnv) (req : UpdateReq)
    (s : Store) (data companySheet : Sheet) (id : String) (i : Nat)
    (hadmin : env.admin = true)
    (hid : req.id = some id)
    (hidne : ¬(id = ""))
    (hco : lookupSheet s.sheets "companies" = some data)
    (hfind : (data.drop 1).findIdx? (fun row => row.getD 0 "" = id) = some i)
    (hguard : putUsernameRejected req (data.drop 1) i = false)
    (hcn : ¬(((data.drop 1).getD i []).getD 1 "" = "companies"))
    (hnn : ¬(req.name.getD "" = "companies"))
    (hold : lookupSheet s.sheets (((data.drop 1).getD i []).getD 1 "") = some companySheet)
    (hnewnone : lookupSheet s.sheets (req.name.getD "") = none) :
    (putRenames req ((data.drop 1).getD i []) = true →
      lookupSheet (updateCompany env req s).2.sheets (((data.drop 1).getD i []).getD 1 "") = none ∧
      lookupSheet (updateCompany env req s).2.sheets (req.name.getD "") = some companySheet) ∧
    (putRenames req ((data.drop 1).getD i []) = false →
      (updateCompany env req s).2.sheets =
        setSheetRow s.sheets "companies" (i + 1) (putUpdatedRow env req id ((data.drop 1).getD i [])) ∧
      ∀ k, ¬(k = "companies") →
        lookupSheet (updateCompany env req s).2.sheets k = lookupSheet s.sheets k) := by
  have hspec := updateCompany_spec env req s data id i hadmin hid hidne hco hfind hguard
  constructor
  · intro hr
    have hnewold : ¬(((data.drop 1).getD i []).getD 1 "" = req.name.getD "") :=
      fun hc => putRenames_ne req _ hr hc.symm
    rw [hspec]
    simp only [hr, if_true]
    constructor
    · exact lookupSheet_renameSheet_old _ _ _ hnewold
    · rw [lookupSheet_renameSheet_new _ _ _
        (by rw [lookupSheet_setSheetRow_ne _ _ _ _ _ (fun hc => hnn hc.symm)]; exact hnewnone)]
      rw [lookupSheet_setSheetRow_ne _ _ _ _ _ (fun hc => hcn hc.symm)]
      exact hold
  · intro hr
    rw [hspec]
    simp only [hr, Bool.false_eq_true, if_false]
    constructor
    · trivial
    · intro k hk
      exact lookupSheet_setSheetRow_ne _ _ _ _ _ (fun hc => hk hc.symm)

/-- Witness for C7: renaming `Acme` to `Beta` moves the backing sheet. -/
theorem update_name_change_renames_sheet_witness :
    lookupSheet (updateCompany wEnvPut wReqRename wStore).2.sheets "Acme" = none ∧
    lookupSheet (updateCompany wEnvPut wReqRename wStore).2.sheets "Beta" =
      some [["Events"]] :=
  (update_name_change_renames_sheet wEnvPut wReqRename wStore wCompanies [["Events"]] "c1" 0
    rfl rfl (by decide) rfl rfl rfl (by decide) (by decide) rfl rfl).1 rfl

end FormMaster
